import Mathlib

/-!
Verification of the game-loop engine in `scripts/gamelib.js`.

The JavaScript source is shallowly embedded: JS numbers are modelled as
rationals (`ℚ`), the bitwise operators `<<` and `~~` are modelled through an
explicit `ToInt32` conversion (truncation toward zero followed by signed
32-bit wraparound), and the side effects of a frame (scene-transition
resolution, `onInitScene` calls, canvas draw calls, timing updates) are
modelled as pure state-passing functions that additionally return the list
of emitted events (init-hook invocations, draw calls).
-/

namespace Gamelib

/-- Truncation of a rational toward zero, the first step of the JS `ToInt32`
conversion applied by the bitwise operators. -/
def ratTrunc (q : ℚ) : ℤ :=
  if 0 ≤ q then ⌊q⌋ else -⌊-q⌋

/-- JS `ToInt32`: truncate toward zero, then wrap into the signed 32-bit
range. This is what both `~~x` and the operands of `<<` go through. -/
def toInt32 (q : ℚ) : ℤ :=
  let m := ratTrunc q % 4294967296
  if m < 2147483648 then m else m - 4294967296

/-- JS expression `q << 6` (used in `renderSprite` as `this.animFrame << 6`):
`ToInt32(q)` shifted left by 6 with signed 32-bit wraparound. -/
def jsShl6 (q : ℚ) : ℤ :=
  let m := toInt32 q * 64 % 4294967296
  if m < 2147483648 then m else m - 4294967296

/-- The timing state kept on the `GameHandler` singleton: `paused`,
`frameCount`, `frameMultipler` (the source spells it without the second
"i"), the previous frame start timestamp `frameStart`, and the debugging
`maxfps` value. -/
structure GameHandlerState where
  paused : Bool
  frameCount : ℕ
  frameMultipler : ℚ
  frameStart : ℚ
  maxfps : ℤ
deriving DecidableEq

/-- `GameHandler.FPSMS`, the ideal frame interval `1000/60` in ms. -/
def FPSMS : ℚ := 1000 / 60

/-- The timing tail of `Game.Main.prototype.frame` (source lines 253-260):
increment `frameCount`, compute `frameInterval = frameStart - GameHandler.frameStart`
replacing a zero interval by 1, every 16th frame recompute
`maxfps = ~~(1000 / frameInterval)`, set
`frameMultipler = frameInterval / FPSMS`, and store the new `frameStart`.
`frameStartNow` is the `Date.now()` value captured at the top of `frame`. -/
def frameTimingUpdate (g : GameHandlerState) (frameStartNow : ℚ) : GameHandlerState :=
  let frameCount := g.frameCount + 1
  let fi0 := frameStartNow - g.frameStart
  let frameInterval := if fi0 = 0 then 1 else fi0
  let maxfps := if frameCount % 16 = 0 then toInt32 (1000 / frameInterval) else g.maxfps
  { g with
      frameCount := frameCount
      frameMultipler := frameInterval / FPSMS
      frameStart := frameStartNow
      maxfps := maxfps }

/-- `GameHandler.pause` restricted to its effect on the timing state.
When already paused it clears `paused`, re-primes `frameStart` to the
current time (`nowResume`) and synchronously runs a frame, whose own
`Date.now()` reading is `nowFrame`; only the timing tail of that frame is
relevant here. When running it merely sets `paused`. -/
def pause (g : GameHandlerState) (nowResume nowFrame : ℚ) : GameHandlerState :=
  if g.paused then
    frameTimingUpdate { g with paused := false, frameStart := nowResume } nowFrame
  else
    { g with paused := true }

/-- `Game.Interval`: a named timed sub-phase with a frame counter and a
completion flag (the label and renderer callback play no role in the
transition logic and are omitted). -/
structure Interval where
  framecounter : ℤ
  complete : Bool
deriving DecidableEq

/-- `Game.Interval.prototype.reset`: sets `framecounter = 0` and
`complete = false`. -/
def Interval.reset (_iv : Interval) : Interval :=
  { framecounter := 0, complete := false }

/-- `Game.Scene` as seen by the scheduler: its `playable` flag, its optional
`interval`, and `completeNow`, the Boolean value this scene's (possibly
overridden) `isComplete()` method returns on the current frame. -/
structure Scene where
  playable : Bool
  interval : Option Interval
  completeNow : Bool
deriving DecidableEq

/-- `Game.Scene.prototype.isComplete` with dynamic dispatch modelled by the
`completeNow` field (the base class returns `false`; games override it). -/
def Scene.isComplete (s : Scene) : Bool :=
  s.completeNow

/-- `Game.Scene.prototype.onInitScene`: resets the interval when present. -/
def Scene.onInitScene (s : Scene) : Scene :=
  match s.interval with
  | some iv => { s with interval := some iv.reset }
  | none => s

/-- The guard `currentScene.interval === null || currentScene.interval.complete`
used twice in `Game.Main.prototype.frame`. -/
def Scene.intervalAbsentOrComplete (s : Scene) : Bool :=
  match s.interval with
  | some iv => iv.complete
  | none => true

/-- A reference to a scene object held by `Game.Main`: either an index into
the `scenes` array or the distinguished `endScene`. -/
inductive SceneRef where
  | idx : ℕ → SceneRef
  | endRef : SceneRef
deriving DecidableEq

/-- The scene-machine state of `Game.Main`: the `scenes` array, the
`endScene`, the retained `currentScene` reference (`none` before the first
frame, matching the source's `null`), and `sceneIndex` (`-1` is the
sentinel). -/
structure MainState where
  scenes : List Scene
  endScene : Scene
  currentScene : Option SceneRef
  sceneIndex : ℤ
deriving DecidableEq

/-- Dereference a scene reference against the state (reads `this.scenes[i]`
or `this.endScene`). Out-of-range reads return a default scene; they occur
only in the fatal mis-configuration case of an empty scene array, which the
source does not survive either. -/
def MainState.getScene (st : MainState) (r : SceneRef) : Scene :=
  match r with
  | .idx i => st.scenes.getD i { playable := true, interval := none, completeNow := false }
  | .endRef => st.endScene

/-- Write back a (mutated) scene object through a reference. -/
def MainState.setScene (st : MainState) (r : SceneRef) (s : Scene) : MainState :=
  match r with
  | .idx i => { st with scenes := st.scenes.set i s }
  | .endRef => { st with endScene := s }

/-- The scene-transition portion of `Game.Main.prototype.frame` (source
lines 202-231 plus the `this.currentScene = currentScene` write-back of
line 252). `gameOver` is the value `this.isGameOver()` returns this frame.
Returns the new state together with the list of scenes whose `onInitScene`
hook was invoked, in invocation order. Note that in the source the
advance-on-completion block (lines 218-231) is a separate `if` statement,
not part of the `if / else if` chain of lines 204-216. -/
def resolveScene (st : MainState) (gameOver : Bool) : MainState × List SceneRef :=
  let p1 : MainState × SceneRef × List SceneRef :=
    match st.currentScene with
    | none =>
        let st1 := { st with sceneIndex := 0 }
        let st1 := st1.setScene (.idx 0) ((st1.getScene (.idx 0)).onInitScene)
        (st1, .idx 0, [SceneRef.idx 0])
    | some r =>
        if gameOver then
          let st1 := { st with sceneIndex := -1 }
          let st1 := st1.setScene .endRef (st1.getScene .endRef).onInitScene
          (st1, .endRef, [SceneRef.endRef])
        else
          (st, r, [])
  let st1 := p1.1
  let r1 := p1.2.1
  let inits1 := p1.2.2
  let cur := st1.getScene r1
  if cur.intervalAbsentOrComplete && cur.isComplete then
    let idx2 := st1.sceneIndex + 1
    let next : MainState × SceneRef :=
      if idx2 < (st1.scenes.length : ℤ) then
        ({ st1 with sceneIndex := idx2 }, SceneRef.idx idx2.toNat)
      else
        ({ st1 with sceneIndex := 0 }, SceneRef.idx 0)
    let st2 := next.1
    let r2 := next.2
    let st2 := st2.setScene r2 ((st2.getScene r2).onInitScene)
    ({ st2 with currentScene := some r2 }, inits1 ++ [r2])
  else
    ({ st1 with currentScene := some r1 }, inits1)

/-- One `ctx.drawImage` destination emitted by the toroidal renderer: the
destination x/y of the blit (the source rectangle and sizes are the same
for every blit of one `renderImage` call). -/
structure Draw where
  dx : ℚ
  dy : ℚ
deriving DecidableEq

/-- `Game.Util.renderImage` restricted to the destinations it draws, in
source order: the primary blit at `(x, y)` followed by the edge-wrap
copies. `W` and `H` are `GameHandler.width` and `GameHandler.height`; `s`
is the destination size. -/
def renderImage (W H x y s : ℚ) : List Draw :=
  [⟨x, y⟩]
    ++ (if x < 0 then [⟨W + x, y⟩] else [])
    ++ (if y < 0 then [⟨x, H + y⟩] else [])
    ++ (if x < 0 ∧ y < 0 then [⟨W + x, H + y⟩] else [])
    ++ (if x + s > W then [⟨x - W, y⟩] else [])
    ++ (if y + s > H then [⟨x, y - H⟩] else [])
    ++ (if x + s > W ∧ y + s > H then [⟨x - W, y - H⟩] else [])

/-- `Game.SpriteActor`, restricted to its animation fields (the inherited
position/vector and the bitmap handle play no role in the claims). -/
structure SpriteActor where
  frameSize : ℚ
  animLength : ℚ
  animForward : Bool
  animSpeed : ℚ
  animFrame : ℚ
deriving DecidableEq

/-- The animation-frame update at the end of `renderSprite`: advance
`animFrame` by `animSpeed * frameMultipler` in the configured direction,
wrapping abruptly to `0` past `animLength` going forward and to
`animLength - 1` below `0` going backward. -/
def SpriteActor.updateAnimFrame (a : SpriteActor) (frameMultipler : ℚ) : SpriteActor :=
  if a.animForward then
    let f := a.animFrame + a.animSpeed * frameMultipler
    if f ≥ a.animLength then { a with animFrame := 0 } else { a with animFrame := f }
  else
    let f := a.animFrame - a.animSpeed * frameMultipler
    if f < 0 then { a with animFrame := a.animLength - 1 } else { a with animFrame := f }

/-- The observable outcome of one `renderSprite` call: the source rectangle
passed to `Game.Util.renderImage` (`sourceX = 0`, `sourceY = animFrame << 6`,
`sourceSize = frameSize`), the destination draws it emits, and the actor
with its animation frame advanced. -/
structure RenderSpriteResult where
  sourceX : ℤ
  sourceY : ℤ
  sourceSize : ℚ
  draws : List Draw
  actor : SpriteActor
deriving DecidableEq

/-- `Game.SpriteActor.renderSprite`: one call with destination `(x, y)` of
size `s` on a `W × H` field, under the current `frameMultipler`. -/
def SpriteActor.renderSprite (a : SpriteActor) (frameMultipler W H x y s : ℚ) :
    RenderSpriteResult :=
  { sourceX := 0
    sourceY := jsShl6 a.animFrame
    sourceSize := a.frameSize
    draws := renderImage W H x y s
    actor := a.updateAnimFrame frameMultipler }

/-- `Game.EffectActor`, restricted to its timing fields: `lifespan` in ms
and `effectStart`, the `GameHandler.frameStart` captured at construction. -/
structure EffectActor where
  lifespan : ℚ
  effectStart : ℚ
deriving DecidableEq

/-- `Game.EffectActor.expired`: true once
`GameHandler.frameStart - effectStart > lifespan`. -/
def EffectActor.expired (a : EffectActor) (frameStart : ℚ) : Bool :=
  frameStart - a.effectStart > a.lifespan

/-- `Game.EffectActor.effectValue`: `val - (val / lifespan) * (frameStart - effectStart)`
cropped below at `0` and above at `val`. -/
def EffectActor.effectValue (a : EffectActor) (frameStart val : ℚ) : ℚ :=
  let result := val - val / a.lifespan * (frameStart - a.effectStart)
  if result < 0 then 0 else if result > val then val else result

/-- C1: every frame the scheduler computes
`frameMultipler = e / (1000/60)` where `e` is the elapsed time between this
frame's captured start and the previous frame's start, substituting `1` for
a zero elapsed interval (so the multiplier is then `60/1000`), and finally
stores this frame's start time as the new last-frame timestamp. -/
theorem frame_multiplier_formula (g : GameHandlerState) (frameStartNow : ℚ) :
    (frameTimingUpdate g frameStartNow).frameMultipler =
      (if frameStartNow - g.frameStart = 0 then 1 else frameStartNow - g.frameStart)
        / (1000 / 60) ∧
    (frameTimingUpdate g g.frameStart).frameMultipler = 60 / 1000 ∧
    (frameTimingUpdate g frameStartNow).frameStart = frameStartNow := by
  refine ⟨rfl, ?_, rfl⟩
  show (if g.frameStart - g.frameStart = 0 then (1:ℚ) else g.frameStart - g.frameStart) / FPSMS
        = 60 / 1000
  norm_num [FPSMS]

/-- C6: each `renderSprite` call advances `animFrame` by
`animSpeed * frameMultipler` in the configured direction, wrapping abruptly
to `0` when the frame reaches or passes `animLength` going forward and to
`animLength - 1` when it drops below `0` going backward; in particular with
`animLength = 10`, `animForward = true`, `animSpeed = 1`,
`frameMultipler = 1` and `animFrame = 9`, one render step sets
`animFrame = 0`. -/
theorem sprite_anim_wrap (a : SpriteActor) (fm W H x y s : ℚ) :
    ((a.renderSprite fm W H x y s).actor.animFrame =
      if a.animForward then
        if a.animLength ≤ a.animFrame + a.animSpeed * fm then 0
        else a.animFrame + a.animSpeed * fm
      else
        if a.animFrame - a.animSpeed * fm < 0 then a.animLength - 1
        else a.animFrame - a.animSpeed * fm) ∧
    (SpriteActor.renderSprite ⟨64, 10, true, 1, 9⟩ 1 W H x y s).actor.animFrame = 0 := by
  constructor
  · simp only [SpriteActor.renderSprite, SpriteActor.updateAnimFrame, ge_iff_le]
    split_ifs <;> rfl
  · norm_num [SpriteActor.renderSprite, SpriteActor.updateAnimFrame]

/-- C8: for an `EffectActor` with positive lifespan `L` and a nonnegative
input `v`, `effectValue v` at elapsed time `t` is `v - (v / L) * t` clamped
to `[0, v]`; it is `v` at `t = 0`, `v / 2` at `t = L / 2`, and `0` for all
`t ≥ L`. -/
theorem effect_value_decay (a : EffectActor) (t v : ℚ)
    (hL : 0 < a.lifespan) (hv : 0 ≤ v) :
    a.effectValue (a.effectStart + t) v =
      min v (max 0 (v - v / a.lifespan * t)) ∧
    a.effectValue a.effectStart v = v ∧
    a.effectValue (a.effectStart + a.lifespan / 2) v = v / 2 ∧
    (a.lifespan ≤ t → a.effectValue (a.effectStart + t) v = 0) := by
  have hL0 : a.lifespan ≠ 0 := ne_of_gt hL
  have hdiv : 0 ≤ v / a.lifespan := div_nonneg hv hL.le
  refine ⟨?_, ?_, ?_, ?_⟩
  · simp only [EffectActor.effectValue, add_sub_cancel_left]
    rcases lt_or_le (v - v / a.lifespan * t) 0 with h | h
    · rw [if_pos h, max_eq_left h.le, min_eq_right hv]
    · rw [if_neg (not_lt.mpr h), max_eq_right h]
      rcases lt_or_le v (v - v / a.lifespan * t) with h2 | h2
      · rw [if_pos h2, min_eq_left h2.le]
      · rw [if_neg (not_lt.mpr h2), min_eq_right h2]
  · simp [EffectActor.effectValue, hv.not_lt]
  · have hhalf : v / a.lifespan * (a.lifespan / 2) = v / 2 := by
      field_simp
    simp only [EffectActor.effectValue, add_sub_cancel_left, hhalf]
    have hvv : v - v / 2 = v / 2 := by ring
    rw [hvv, if_neg (not_lt.mpr (by linarith : (0:ℚ) ≤ v / 2)),
      if_neg (not_lt.mpr (by linarith : v / 2 ≤ v))]
  · intro ht
    have hkey : v ≤ v / a.lifespan * t := by
      calc v = v / a.lifespan * a.lifespan := by field_simp
        _ ≤ v / a.lifespan * t := by
            exact mul_le_mul_of_nonneg_left ht hdiv
    simp only [EffectActor.effectValue, add_sub_cancel_left]
    rcases lt_or_eq_of_le (by linarith : v - v / a.lifespan * t ≤ 0) with h | h
    · rw [if_pos h]
    · rw [if_neg (by linarith), if_neg (by linarith), h]

/-- C8 witness: with `lifespan = 1000` and `effectStart = 0`, at elapsed
time `500 = 1000 / 2` the value `100` decays to `50 = 100 / 2`. -/
theorem effect_value_decay_witness :
    EffectActor.effectValue ⟨1000, 0⟩ ((0 : ℚ) + 1000 / 2) 100 = 100 / 2 :=
  (effect_value_decay ⟨1000, 0⟩ 500 100 (by norm_num) (by norm_num)).2.2.1

/-- C9: resuming from pause clears `paused`, forces an immediate frame
advance, and re-primes the timestamp to the resume time, so the
`frameMultipler` of the first resumed frame depends only on the gap between
the resume time and that frame's own clock reading, never on the wall-clock
time spent paused: two resumes with equal resume-to-frame gaps but
arbitrarily different pause histories produce the same multiplier. -/
theorem pause_resume_multiplier_independent (g1 g2 : GameHandlerState)
    (nr1 nf1 nr2 nf2 : ℚ) (h1 : g1.paused = true) (h2 : g2.paused = true)
    (hd : nf1 - nr1 = nf2 - nr2) :
    (pause g1 nr1 nf1).frameMultipler = (pause g2 nr2 nf2).frameMultipler ∧
    (pause g1 nr1 nf1).paused = false ∧
    (pause g1 nr1 nf1).frameCount = g1.frameCount + 1 := by
  refine ⟨?_, ?_, ?_⟩ <;> simp [pause, h1, h2, frameTimingUpdate, hd]

/-- C9 witness: one handler paused since timestamp 100 resuming at time
9000 and another paused since timestamp 100 resuming at time 200 (pause
durations differing by 8800 ms) produce the same resumed multiplier. -/
theorem pause_resume_multiplier_independent_witness :
    (pause ⟨true, 0, 1, 100, 0⟩ 9000 9000).frameMultipler =
      (pause ⟨true, 7, 2, 100, 0⟩ 200 200).frameMultipler :=
  (pause_resume_multiplier_independent ⟨true, 0, 1, 100, 0⟩ ⟨true, 7, 2, 100, 0⟩
    9000 9000 200 200 rfl rfl (by norm_num)).1

/-- C2: on a frame with a current scene, a false game-over predicate, and a
current-scene interval that exists and is incomplete, the resolution leaves
the machine exactly where it was (same scene, same index, no init hook),
regardless of what `isComplete()` returns. -/
theorem interval_gating_blocks_advance (st : MainState) (r : SceneRef) (iv : Interval)
    (hc : st.currentScene = some r)
    (hiv : (st.getScene r).interval = some iv)
    (hinc : iv.complete = false) :
    resolveScene st false = ({ st with currentScene := some r }, []) := by
  unfold resolveScene
  rw [hc]
  simp [Scene.intervalAbsentOrComplete, hiv, hinc]

/-- C2 witness: a one-scene sequence whose scene reports complete but whose
interval is still incomplete stays on that scene with no init call. -/
theorem interval_gating_blocks_advance_witness :
    resolveScene
        { scenes := [{ playable := true,
                       interval := some { framecounter := 3, complete := false },
                       completeNow := true }],
          endScene := { playable := false, interval := none, completeNow := false },
          currentScene := some (SceneRef.idx 0), sceneIndex := 0 } false =
      ({ scenes := [{ playable := true,
                      interval := some { framecounter := 3, complete := false },
                      completeNow := true }],
          endScene := { playable := false, interval := none, completeNow := false },
          currentScene := some (SceneRef.idx 0), sceneIndex := 0 }, []) :=
  interval_gating_blocks_advance _ (SceneRef.idx 0) ⟨3, false⟩ rfl rfl rfl

/-- C3 counterexample: with no current scene and a scene 0 that has no
interval and already reports complete, rule 1 (enter scene 0) and rule 3
(advance on completion) both fire in the same frame resolution: two init
hooks run and the frame ends on scene 1, not scene 0, so more than one
scene transition occurs in one resolution. -/
theorem rule_three_fires_after_rule_one_cex :
    (resolveScene
        { scenes := [{ playable := true, interval := none, completeNow := true },
                     { playable := true, interval := none, completeNow := false }],
          endScene := { playable := false, interval := none, completeNow := false },
          currentScene := none, sceneIndex := -1 } false).2 =
        [SceneRef.idx 0, SceneRef.idx 1] ∧
    (resolveScene
        { scenes := [{ playable := true, interval := none, completeNow := true },
                     { playable := true, interval := none, completeNow := false }],
          endScene := { playable := false, interval := none, completeNow := false },
          currentScene := none, sceneIndex := -1 } false).1.currentScene =
        some (SceneRef.idx 1) := by
  decide

/-- C3 amended: rules 1 and 2 are mutually exclusive, but rule 3 is a
separate `if` statement evaluated after them, so it can additionally fire
on the scene just entered by rule 1 or rule 2; hence up to two transitions
(two init-hook invocations) can occur per frame resolution, and a frame in
which rule 1 fired never ends with the game-over sentinel index. -/
theorem transition_init_count_bound (st : MainState) (gameOver : Bool) :
    (resolveScene st gameOver).2.length ≤ 2 ∧
    (st.currentScene = none → 0 ≤ (resolveScene st gameOver).1.sceneIndex) := by
  unfold resolveScene
  cases hc : st.currentScene with
  | none =>
      constructor
      · simp only [hc]
        split_ifs <;> simp
      · intro _
        simp only [hc]
        split_ifs <;> simp [MainState.setScene]
  | some r =>
      constructor
      · simp only [hc]
        split_ifs <;> simp
      · intro h
        exact absurd h (Option.some_ne_none r)

/-- C3 amended witness: the double-fire state of the counterexample still
respects the two-transition bound, and its resolved index is nonnegative. -/
theorem transition_init_count_bound_witness :
    (resolveScene
        { scenes := [{ playable := true, interval := none, completeNow := true },
                     { playable := true, interval := none, completeNow := false }],
          endScene := { playable := false, interval := none, completeNow := false },
          currentScene := none, sceneIndex := -1 } true).2.length ≤ 2 ∧
    0 ≤ (resolveScene
        { scenes := [{ playable := true, interval := none, completeNow := true },
                     { playable := true, interval := none, completeNow := false }],
          endScene := { playable := false, interval := none, completeNow := false },
          currentScene := none, sceneIndex := -1 } true).1.sceneIndex :=
  ⟨(transition_init_count_bound _ true).1, (transition_init_count_bound _ true).2 rfl⟩

/-- The index invariant of the scene sequence: `sceneIndex` is either the
sentinel `-1` or a valid index into `scenes`. -/
def idxOK (st : MainState) : Prop :=
  st.sceneIndex = -1 ∨ (0 ≤ st.sceneIndex ∧ st.sceneIndex < (st.scenes.length : ℤ))

/-- C4: for a two-scene sequence `[A, B]` with no intervals and no game
over, a frame on `A` with `A.isComplete()` true resolves to `B`; a frame on
`B` with `B.isComplete()` true wraps back to `A`, invoking `A.onInitScene`
exactly once; and one resolution step always leaves the scene index either
at the sentinel or inside `[0, length)` whenever the scene list is
nonempty. -/
theorem two_scene_cycle (A B E : Scene)
    (hA : A.interval = none) (hB : B.interval = none) :
    (A.completeNow = true →
      resolveScene
          { scenes := [A, B], endScene := E,
            currentScene := some (SceneRef.idx 0), sceneIndex := 0 } false =
        ({ scenes := [A, B], endScene := E,
           currentScene := some (SceneRef.idx 1), sceneIndex := 1 }, [SceneRef.idx 1])) ∧
    (B.completeNow = true →
      resolveScene
          { scenes := [A, B], endScene := E,
            currentScene := some (SceneRef.idx 1), sceneIndex := 1 } false =
        ({ scenes := [A, B], endScene := E,
           currentScene := some (SceneRef.idx 0), sceneIndex := 0 }, [SceneRef.idx 0])) ∧
    (∀ st : MainState, ∀ gameOver : Bool, st.scenes ≠ [] →
      idxOK st → idxOK (resolveScene st gameOver).1) := by
  refine ⟨?_, ?_, ?_⟩
  · intro hAc
    simp [resolveScene, MainState.getScene, MainState.setScene, Scene.onInitScene,
      Scene.intervalAbsentOrComplete, Scene.isComplete, hA, hB, hAc]
  · intro hBc
    simp [resolveScene, MainState.getScene, MainState.setScene, Scene.onInitScene,
      Scene.intervalAbsentOrComplete, Scene.isComplete, hA, hB, hBc]
  · intro st gameOver hne hok
    have hlen : 0 < st.scenes.length := List.length_pos.mpr hne
    rcases hok with h | h <;>
      · simp only [resolveScene]
        cases hc : st.currentScene <;>
          · simp only [hc]
            split_ifs <;>
              simp_all [idxOK, MainState.setScene, MainState.getScene] <;>
              omega

/-- C4 witness: concrete interval-free scenes realising the wrap from `B`
back to `A` with a single init call. -/
theorem two_scene_cycle_witness :
    resolveScene
        { scenes := [{ playable := true, interval := none, completeNow := true },
                     { playable := true, interval := none, completeNow := true }],
          endScene := { playable := false, interval := none, completeNow := false },
          currentScene := some (SceneRef.idx 1), sceneIndex := 1 } false =
      ({ scenes := [{ playable := true, interval := none, completeNow := true },
                    { playable := true, interval := none, completeNow := true }],
         endScene := { playable := false, interval := none, completeNow := false },
         currentScene := some (SceneRef.idx 0), sceneIndex := 0 }, [SceneRef.idx 0]) :=
  (two_scene_cycle
      { playable := true, interval := none, completeNow := true }
      { playable := true, interval := none, completeNow := true }
      { playable := false, interval := none, completeNow := false }
      rfl rfl).2.1 rfl

/-- C5 counterexample: with the end scene already the current scene and the
game-over predicate still true, the resolution invokes the end scene's
`onInitScene` again, contradicting the claim that the hook never runs on a
frame where the scene was already current. -/
theorem gameover_reinits_current_end_scene_cex :
    (({ scenes := [{ playable := true, interval := none, completeNow := false }],
        endScene := { playable := false, interval := none, completeNow := false },
        currentScene := some SceneRef.endRef, sceneIndex := -1 } : MainState).currentScene =
      some SceneRef.endRef) ∧
    (resolveScene
        { scenes := [{ playable := true, interval := none, completeNow := false }],
          endScene := { playable := false, interval := none, completeNow := false },
          currentScene := some SceneRef.endRef, sceneIndex := -1 } true).2 =
      [SceneRef.endRef] := by
  decide

/-- C5 amended: `onInitScene` runs on every frame in which a transition
rule fires, not only when the scene newly becomes active: whenever a
current scene exists and the game-over predicate holds, the end scene's
init hook is (re-)invoked first, even on consecutive game-over frames in
which the end scene is already current; a frame on which neither game over
nor the completion rule applies invokes no init hook at all. -/
theorem init_invoked_on_rule_fire (st : MainState) (r : SceneRef)
    (hc : st.currentScene = some r) :
    (resolveScene st true).2.head? = some SceneRef.endRef ∧
    (((st.getScene r).intervalAbsentOrComplete && (st.getScene r).isComplete) = false →
      (resolveScene st false).2 = []) := by
  constructor
  · simp only [resolveScene, hc]
    split_ifs <;> simp
  · intro hstay
    simp only [resolveScene, hc]
    simp [hstay]

/-- C5 amended witness: a game-over frame with the end scene already
current re-invokes its init hook, and an uneventful frame invokes none. -/
theorem init_invoked_on_rule_fire_witness :
    (resolveScene
        { scenes := [{ playable := true, interval := none, completeNow := true }],
          endScene := { playable := false, interval := none, completeNow := false },
          currentScene := some SceneRef.endRef, sceneIndex := -1 } true).2.head? =
      some SceneRef.endRef ∧
    (resolveScene
        { scenes := [{ playable := true, interval := none, completeNow := true }],
          endScene := { playable := false, interval := none, completeNow := false },
          currentScene := some SceneRef.endRef, sceneIndex := -1 } false).2 = [] :=
  ⟨(init_invoked_on_rule_fire _ SceneRef.endRef rfl).1,
   (init_invoked_on_rule_fire _ SceneRef.endRef rfl).2 rfl⟩

/-- Draw-call count of one toroidal `renderImage` call: the primary blit
plus one per satisfied edge condition, in source order. -/
theorem renderImage_length (W H x y s : ℚ) :
    (renderImage W H x y s).length =
      1 + (if x < 0 then 1 else 0) + (if y < 0 then 1 else 0)
        + (if x < 0 ∧ y < 0 then 1 else 0) + (if x + s > W then 1 else 0)
        + (if y + s > H then 1 else 0) + (if x + s > W ∧ y + s > H then 1 else 0) := by
  simp only [renderImage, List.length_append]
  split_ifs <;> rfl

/-- C7 counterexample: on a `10 × 10` field, a destination square of size
`30` at `(-5, -5)` satisfies all six edge conditions at once, so
`renderImage` issues 7 draws (6 extra ones), refuting the claimed bound of
at most 4 extra draws. -/
theorem toroidal_seven_draws_cex :
    (renderImage 10 10 (-5) (-5) 30).length = 7 := by
  norm_num [renderImage]

/-- C7 amended: a destination square fully inside the field issues exactly
the primary draw; a destination at `destX = -5` straddling only the left
edge issues the primary draw plus exactly one extra draw at `destX = W - 5`;
extra draws occur exactly when the destination rectangle is not fully
inside the field; and the number of draws is at most 5 (primary plus 4)
whenever the destination size fits the field in at least one dimension
(`s ≤ W` or `s ≤ H`), and at most 7 in general (a destination exceeding
the field in both dimensions can trigger all six extra draws). -/
theorem toroidal_draw_counts (W H x y s : ℚ) :
    (0 ≤ x → 0 ≤ y → x + s ≤ W → y + s ≤ H → renderImage W H x y s = [⟨x, y⟩]) ∧
    (0 ≤ y → -5 + s ≤ W → y + s ≤ H → renderImage W H (-5) y s = [⟨-5, y⟩, ⟨W - 5, y⟩]) ∧
    (1 < (renderImage W H x y s).length ↔ ¬(0 ≤ x ∧ 0 ≤ y ∧ x + s ≤ W ∧ y + s ≤ H)) ∧
    (s ≤ W ∨ s ≤ H → (renderImage W H x y s).length ≤ 5) ∧
    (renderImage W H x y s).length ≤ 7 := by
  refine ⟨?_, ?_, ?_, ?_, ?_⟩
  · intro hx hy hxs hys
    simp [renderImage, not_lt.mpr hx, not_lt.mpr hy, not_lt.mpr hxs, not_lt.mpr hys]
  · intro hy hxs hys
    have hx5 : ((-5 : ℚ)) < 0 := by norm_num
    simp only [renderImage, if_pos hx5, if_neg (not_lt.mpr hy), if_neg (not_lt.mpr hxs),
      if_neg (not_lt.mpr hys), if_neg (fun hc : (-5 : ℚ) < 0 ∧ y < 0 => absurd hc.2 (not_lt.mpr hy)),
      if_neg (fun hc : W < -5 + s ∧ H < y + s => absurd hc.1 (not_lt.mpr hxs))]
    norm_num
    ring_nf
  · constructor
    · intro hlen hin
      obtain ⟨hx, hy, hxs, hys⟩ := hin
      rw [renderImage_length W H x y s, if_neg (not_lt.mpr hx), if_neg (not_lt.mpr hy),
        if_neg (fun hc : x < 0 ∧ y < 0 => absurd hc.1 (not_lt.mpr hx)),
        if_neg (not_lt.mpr hxs), if_neg (not_lt.mpr hys),
        if_neg (fun hc : x + s > W ∧ y + s > H => absurd hc.1 (not_lt.mpr hxs))] at hlen
      omega
    · intro hout
      rw [renderImage_length W H x y s]
      by_cases h1 : x < 0 <;> by_cases h2 : y < 0 <;>
        by_cases h4 : x + s > W <;> by_cases h5 : y + s > H <;>
          simp [h1, h2, h4, h5] <;>
          exact absurd ⟨not_lt.mp h1, not_lt.mp h2, not_lt.mp h4, not_lt.mp h5⟩ hout
  · intro hs
    rw [renderImage_length W H x y s]
    by_cases h1 : x < 0 <;> by_cases h2 : y < 0 <;>
      by_cases h4 : x + s > W <;> by_cases h5 : y + s > H <;>
        simp [h1, h2, h4, h5] <;>
        rcases hs with h | h <;> linarith
  · rw [renderImage_length W H x y s]
    split_ifs <;> omega

/-- C7 amended witness: on a `100 × 80` field, a `10`-square at `(20, 30)`
issues one draw, a `10`-square at `(-5, 30)` issues the primary draw plus
one extra at `x = 95`, and a `10`-square at the `(-5, -5)` corner issues at
most 5 draws. -/
theorem toroidal_draw_counts_witness :
    renderImage 100 80 20 30 10 = [⟨20, 30⟩] ∧
    renderImage 100 80 (-5) 30 10 = [⟨-5, 30⟩, ⟨100 - 5, 30⟩] ∧
    (renderImage 100 80 (-5) (-5) 10).length ≤ 5 :=
  ⟨(toroidal_draw_counts 100 80 20 30 10).1 (by norm_num) (by norm_num) (by norm_num)
      (by norm_num),
   (toroidal_draw_counts 100 80 0 30 10).2.1 (by norm_num) (by norm_num) (by norm_num),
   (toroidal_draw_counts 100 80 (-5) (-5) 10).2.2.2.1 (Or.inl (by norm_num))⟩

/-- Int bounds on the floor of a small nonnegative rational, feeding the
32-bit arithmetic of `jsShl6`. -/
theorem jsShl6_of_small (q : ℚ) (h0 : 0 ≤ q) (h1 : q < 33554432) :
    jsShl6 q = ⌊q⌋ * 64 := by
  have hf0 : (0 : ℤ) ≤ ⌊q⌋ := Int.floor_nonneg.mpr h0
  have hf1 : ⌊q⌋ < 33554432 := by
    rw [Int.floor_lt]
    exact_mod_cast h1
  simp only [jsShl6, toInt32, ratTrunc, if_pos h0]
  rw [Int.emod_eq_of_lt hf0 (by omega), if_pos (by omega),
    Int.emod_eq_of_lt (by omega) (by omega), if_pos (by omega)]

/-- C10: every `renderSprite` call passes source-tile offsets computed from
a hard-coded 64-pixel stride: `sourceY = (animFrame << 6) = floor(animFrame) * 64`
(for any animation frame in its nonnegative domain, fractional frames
truncating to a whole frame), while the sampled source size is the
configured `frameSize` — so for any `frameSize ≠ 64` the per-frame stride
64 disagrees with the sampled size. -/
theorem sprite_source_rect (a : SpriteActor) (fm W H x y s : ℚ)
    (h0 : 0 ≤ a.animFrame) (h1 : a.animFrame < 33554432) :
    (a.renderSprite fm W H x y s).sourceY = ⌊a.animFrame⌋ * 64 ∧
    (a.renderSprite fm W H x y s).sourceSize = a.frameSize ∧
    (a.renderSprite fm W H x y s).sourceX = 0 := by
  refine ⟨?_, rfl, rfl⟩
  simpa [SpriteActor.renderSprite] using jsShl6_of_small a.animFrame h0 h1

/-- C10 witness: a sprite with `frameSize = 32` and fractional
`animFrame = 9/2` still samples at `sourceY = 4 * 64 = 256` with source
size 32. -/
theorem sprite_source_rect_witness :
    (SpriteActor.renderSprite ⟨32, 10, true, 1, 9 / 2⟩ 1 400 300 0 0 20).sourceY = 256 ∧
    (SpriteActor.renderSprite ⟨32, 10, true, 1, 9 / 2⟩ 1 400 300 0 0 20).sourceSize = 32 := by
  have h := sprite_source_rect ⟨32, 10, true, 1, 9 / 2⟩ 1 400 300 0 0 20
    (by norm_num) (by norm_num)
  refine ⟨?_, h.2.1⟩
  rw [h.1]
  norm_num

end Gamelib
